import Mathlib

/-!
Shallow embedding of the poll/voting application (apps `poll_system` and
`polls`) and proofs about its data model, vote integrity, results and
statistics computations.  Python numbers are modelled as exact rationals;
Python `round` (banker's rounding, half to even) is modelled by `pyRoundInt`
and `pyRoundTo`; a Python division that can raise `ZeroDivisionError` is
modelled by `safeDiv`, whose `none` result stands for the raised exception.
Database tables are lists of rows; the `polls` list is kept in the model's
default ordering (newest first, `Meta.ordering = ['-created_at']`).
-/

namespace PollNexus

/-- Exact rational numbers in lowest terms with positive denominator,
used to model Python numeric values.  (Mathlib's `ℚ` is avoided because
its arithmetic does not reduce inside the kernel, which would block
`decide` on concrete stores.) -/
structure Q where
  n : ℤ
  d : ℕ
deriving DecidableEq

/-- Build the canonical representative of `n / d` (junk value `0` when
`d = 0`; every division in the embedded code is guarded or checked). -/
def Q.mk' (n d : ℤ) : Q :=
  if d = 0 then ⟨0, 1⟩
  else
    let n' : ℤ := if d < 0 then -n else n
    let d' : ℕ := (if d < 0 then -d else d).toNat
    let g : ℕ := Int.gcd n' (Int.ofNat d')
    ⟨n' / (g : ℤ), d' / g⟩

/-- Embed an integer. -/
def Q.ofInt (n : ℤ) : Q := ⟨n, 1⟩

/-- Addition of exact rationals. -/
def Q.add (a b : Q) : Q := Q.mk' (a.n * b.d + b.n * a.d) (a.d * b.d)

/-- Subtraction of exact rationals. -/
def Q.sub (a b : Q) : Q := Q.mk' (a.n * b.d - b.n * a.d) (a.d * b.d)

/-- Multiplication of exact rationals. -/
def Q.mul (a b : Q) : Q := Q.mk' (a.n * b.n) (a.d * b.d)

/-- Division of exact rationals (junk when `b` is zero; the embedded code
only divides under a guard, or through `safeDiv`). -/
def Q.div (a b : Q) : Q := Q.mk' (a.n * b.d) (a.d * b.n)

/-- Strict comparison (valid on canonical values, whose denominators are
positive). -/
def Q.blt (a b : Q) : Bool := a.n * b.d < b.n * a.d

/-- Floor of an exact rational. -/
def Q.floor (q : Q) : ℤ := Int.fdiv q.n q.d

/-- Python `round(q)`: round half to even (banker's rounding). -/
def pyRoundInt (q : Q) : ℤ :=
  let f := q.floor
  let frac := q.sub (Q.ofInt f)
  if frac.blt (Q.mk' 1 2) then f
  else if (Q.mk' 1 2).blt frac then f + 1
  else if f % 2 == 0 then f else f + 1

/-- Python `round(q, k)`: round to `k` decimal places, half to even. -/
def pyRoundTo (k : ℕ) (q : Q) : Q :=
  Q.mk' (pyRoundInt (q.mul (Q.ofInt (10 ^ k)))) (10 ^ k)

/-- Python division: `none` models a raised `ZeroDivisionError`. -/
def safeDiv (a b : Q) : Option Q := if b.n = 0 then none else some (a.div b)

/-- Percentage of `count` out of `total`: `count / total * 100`. -/
def Q.pct (count total : ℕ) : Q :=
  (Q.div (Q.ofInt count) (Q.ofInt total)).mul (Q.ofInt 100)

/-- Python whitespace for `str.strip()`. -/
def isPySpace (c : Char) : Bool :=
  c == ' ' || c == '\t' || c == '\n' || c == '\r' || c == '\x0b' || c == '\x0c'

/-- Python `str.strip()`: drop leading and trailing whitespace.  Defined
over the character list so that it reduces inside the kernel. -/
def pyStrip (s : String) : String :=
  String.mk (((s.data.dropWhile isPySpace).reverse.dropWhile isPySpace).reverse)

/-- Sort a list in descending order of an ℕ-valued key, stably (Python
`list.sort(key=..., reverse=True)` and SQL `ORDER BY key DESC`). -/
def sortDescBy (key : α → ℕ) (l : List α) : List α :=
  l.insertionSort (fun a b => key b ≤ key a)

/-- Update the first list element satisfying `p` (Django
`queryset.first()` followed by mutation and `save()`). -/
def updateFirst (p : α → Bool) (f : α → α) : List α → List α
  | [] => []
  | a :: as => if p a then f a :: as else a :: updateFirst p f as

/-- Outcome of a request handler: HTTP status plus the `success` flag of
the JSON body. -/
structure HttpResult where
  status : Nat
  success : Bool
deriving DecidableEq

end PollNexus

namespace PS

/-! ## Schema of app `poll_system` (`poll_system/models.py`) -/

/-- Row of `poll_system.models.Poll`. -/
structure Poll where
  id : Nat
  title : String
  description : String
  category : String
  creator : Nat
  isActive : Bool
  expiresAt : Option Nat
deriving DecidableEq

/-- Row of `poll_system.models.PollOption`. -/
structure PollOption where
  id : Nat
  pollId : Nat
  text : String
deriving DecidableEq

/-- Row of `poll_system.models.Vote`: foreign keys to poll, option and
user (`Meta.unique_together = ('poll', 'user')`). -/
structure Vote where
  id : Nat
  pollId : Nat
  optionId : Nat
  userId : Nat
  ipAddress : Option String
deriving DecidableEq

/-- Store of app `poll_system`: one list per table; `polls` is held in the
default ordering (newest first). `users` lists registered user ids. -/
structure State where
  polls : List Poll
  options : List PollOption
  votes : List Vote
  users : List Nat
deriving DecidableEq

/-- `Poll.objects.get/filter(id=poll_id)` head row. -/
def findPoll (s : State) (pollId : Nat) : Option Poll :=
  s.polls.find? (fun p => p.id == pollId)

/-- `PollOption.objects.filter(id=option_id, poll=poll)` head row. -/
def findOption (s : State) (optionId pollId : Nat) : Option PollOption :=
  s.options.find? (fun o => o.id == optionId && o.pollId == pollId)

/-- `Vote.objects.filter(poll=poll, user=user).first()`. -/
def findVote (s : State) (pollId userId : Nat) : Option Vote :=
  s.votes.find? (fun v => v.pollId == pollId && v.userId == userId)

/-- `Vote.objects.filter(poll=poll).count()` (`Poll.total_votes`). -/
def pollVoteCount (s : State) (pollId : Nat) : Nat :=
  (s.votes.filter (fun v => v.pollId == pollId)).length

/-- `Vote.objects.filter(option=option).count()` (`PollOption.vote_count`). -/
def optionVoteCount (s : State) (optionId : Nat) : Nat :=
  (s.votes.filter (fun v => v.optionId == optionId)).length

/-- The `unique_together = ('poll', 'user')` constraint of
`poll_system.models.Vote`: no two distinct vote rows share poll and user. -/
def uniquePollUser (s : State) : Prop :=
  s.votes.Pairwise (fun a b => ¬(a.pollId = b.pollId ∧ a.userId = b.userId))

instance (s : State) : Decidable (uniquePollUser s) := by
  unfold uniquePollUser; infer_instance

/-- `vote_poll` (`poll_system/views.py`).  The request body's `option_id`
is `none` when absent; `if not option_id` also treats `0` as missing.  A
`get_object_or_404` failure raises `Http404`, which the surrounding
`except Exception` turns into a generic 500 response. -/
def vote_poll (s : State) (pollId userId : Nat) (optionId : Option Nat)
    (newVoteId : Nat) : PollNexus.HttpResult × State :=
  match optionId with
  | none => (⟨400, false⟩, s)
  | some oid =>
    if oid = 0 then (⟨400, false⟩, s)
    else
      match findPoll s pollId with
      | none => (⟨500, false⟩, s)
      | some poll =>
        match findOption s oid poll.id with
        | none => (⟨500, false⟩, s)
        | some opt =>
          match findVote s poll.id userId with
          | some _ =>
            let votes :=
              PollNexus.updateFirst
                (fun v => v.pollId == poll.id && v.userId == userId)
                (fun v => { v with optionId := opt.id }) s.votes
            (⟨200, true⟩, { s with votes := votes })
          | none =>
            let v : Vote :=
              { id := newVoteId, pollId := poll.id, optionId := opt.id,
                userId := userId, ipAddress := none }
            (⟨200, true⟩, { s with votes := s.votes ++ [v] })

open PollNexus in
/-- `create_poll` (`poll_system/views.py`).  Validation (title required,
2–10 options) is performed on the *raw* options list; afterwards each
option is stripped and whitespace-only entries are silently skipped when
persisting.  `newPollId` and `optIdBase` model the autoincrement ids. -/
def create_poll (s : State) (userId : Nat) (title description category : String)
    (options : List String) (newPollId optIdBase : Nat) :
    PollNexus.HttpResult × State :=
  let title := pyStrip title
  let description := pyStrip description
  let category := pyStrip category
  if title == "" then (⟨400, false⟩, s)
  else if options.length < 2 then (⟨400, false⟩, s)
  else if options.length > 10 then (⟨400, false⟩, s)
  else
    let poll : Poll :=
      { id := newPollId, title := title, description := description,
        category := category, creator := userId, isActive := true,
        expiresAt := none }
    let kept := options.filter (fun t => !(pyStrip t == ""))
    let newOpts := (List.zip (List.range kept.length) kept).map
      (fun it => { id := optIdBase + it.1, pollId := newPollId,
                   text := pyStrip it.2 : PollOption })
    (⟨200, true⟩,
     { s with polls := poll :: s.polls, options := s.options ++ newOpts })

/-- Request body of the consolidated `poll_detail` PUT handler:
`data.get('title', poll.title)`-style fields and
`options = data.get('options', [])`. -/
structure PutBody where
  title : Option String
  description : Option String
  category : Option String
  options : List String
deriving DecidableEq

open PollNexus in
/-- PUT branch of the (second, effective) `poll_detail`
(`poll_system/views.py`).  A missing poll raises `Http404`, which the
handler's own `except Exception` converts to a 500 response.  Replacing
the options deletes every existing `PollOption` of the poll; the
`on_delete=CASCADE` of `Vote.option` then deletes every vote row whose
option was removed. -/
def poll_detail_put (s : State) (auth : Bool) (userId pollId : Nat)
    (body : PutBody) (optIdBase : Nat) : PollNexus.HttpResult × State :=
  match findPoll s pollId with
  | none => (⟨500, false⟩, s)
  | some poll =>
    if !auth || !(poll.creator == userId) then (⟨403, false⟩, s)
    else if body.options.length < 2 then (⟨400, false⟩, s)
    else
      let poll' : Poll :=
        { poll with title := body.title.getD poll.title,
                    description := body.description.getD poll.description,
                    category := body.category.getD poll.category }
      let polls' := s.polls.map (fun p => if p.id == pollId then poll' else p)
      if body.options.isEmpty then (⟨200, true⟩, { s with polls := polls' })
      else
        let deletedIds := (s.options.filter (fun o => o.pollId == poll.id)).map (·.id)
        let remaining := s.options.filter (fun o => !(o.pollId == poll.id))
        let votes' := s.votes.filter (fun v => !(deletedIds.contains v.optionId))
        let kept := body.options.filter (fun t => !(pyStrip t == ""))
        let newOpts := (List.zip (List.range kept.length) kept).map
          (fun it => { id := optIdBase + it.1, pollId := poll.id,
                       text := pyStrip it.2 : PollOption })
        (⟨200, true⟩,
         { s with polls := polls', options := remaining ++ newOpts,
                  votes := votes' })

open PollNexus in
/-- DELETE branch of the (second, effective) `poll_detail`
(`poll_system/views.py`).  `poll.delete()` cascades to the poll's options
and votes. -/
def poll_detail_delete (s : State) (auth : Bool) (userId pollId : Nat) :
    PollNexus.HttpResult × State :=
  match findPoll s pollId with
  | none => (⟨500, false⟩, s)
  | some poll =>
    if !auth || !(poll.creator == userId) then (⟨403, false⟩, s)
    else
      let deletedIds := (s.options.filter (fun o => o.pollId == poll.id)).map (·.id)
      (⟨200, true⟩,
       { polls := s.polls.filter (fun p => !(p.id == poll.id)),
         options := s.options.filter (fun o => !(o.pollId == poll.id)),
         votes := s.votes.filter
           (fun v => !(v.pollId == poll.id) && !(deletedIds.contains v.optionId)),
         users := s.users })

/-- `delete_poll` (`poll_system/views.py`, function-based variant).  The
source queries `Poll.objects.get(id=poll_id, created_by=request.user)`,
but this app's `Poll` model declares the owner field as `creator`, not
`created_by`: Django raises `FieldError` ("Cannot resolve keyword
'created_by'") while resolving the lookup, which is not
`Poll.DoesNotExist` and therefore falls into the handler's
`except Exception` → 500 for **every** request — creator or not — and no
poll is ever deleted.  The `userId`/`pollId` arguments are kept for the
handler's signature. -/
def delete_poll (s : State) (userId pollId : Nat) :
    PollNexus.HttpResult × State :=
  (⟨500, false⟩, s)

/-- One entry of the `poll_results` options array. -/
structure ResultEntry where
  optionId : Nat
  text : String
  voteCount : Nat
  percentage : PollNexus.Q
deriving DecidableEq

open PollNexus in
/-- `poll_results` (`poll_system/views.py`): per-option vote counts and
percentage rounded to 1 decimal place, 0 when the poll has no votes.
`none` models the missing-poll failure path. -/
def poll_results (s : State) (pollId : Nat) :
    Option (Nat × List ResultEntry) :=
  match findPoll s pollId with
  | none => none
  | some poll =>
    let total := pollVoteCount s poll.id
    some (total,
      (s.options.filter (fun o => o.pollId == poll.id)).map (fun o =>
        let vc := optionVoteCount s o.id
        { optionId := o.id, text := o.text, voteCount := vc,
          percentage :=
            pyRoundTo 1 (if 0 < total then Q.pct vc total else Q.ofInt 0) }))

open PollNexus in
/-- `PollOption.vote_percentage` (`poll_system/models.py`): percentage of
the option's poll's votes, rounded to 1 decimal place, with an explicit
guard returning 0 when the poll has no votes. -/
def vote_percentage (s : State) (o : PollOption) : Option Q :=
  let total := pollVoteCount s o.pollId
  if total = 0 then some (Q.ofInt 0)
  else
    (safeDiv (Q.ofInt (optionVoteCount s o.id)) (Q.ofInt total)).map
      (fun q => pyRoundTo 1 (q.mul (Q.ofInt 100)))

/-- `Poll.objects.annotate(vote_count=Count('votes')).filter(vote_count__gt=0).count()`. -/
def pollsWithVotesCount (s : State) : Nat :=
  ((s.polls.map (fun p => pollVoteCount s p.id)).filter (fun c => 0 < c)).length

/-- `Vote.objects.values('user').distinct().count()`. -/
def usersWhoVotedCount (s : State) : Nat :=
  (s.votes.map (·.userId)).dedup.length

/-- The three rates of `detailed_statistics`. -/
structure DetailedStats where
  completionRate : PollNexus.Q
  avgVotesPerPoll : PollNexus.Q
  engagementRate : PollNexus.Q
deriving DecidableEq

open PollNexus in
/-- `detailed_statistics` (`poll_system/views.py`): completion rate,
average votes per poll and engagement rate, each division guarded by a
positivity check on its denominator and rounded to 2 decimal places. -/
def detailed_statistics (s : State) : Option DetailedStats := do
  let totalPolls := s.polls.length
  let totalVotes := s.votes.length
  let completionRate ←
    if 0 < totalPolls then
      (safeDiv (Q.ofInt (pollsWithVotesCount s)) (Q.ofInt totalPolls)).map
        (fun q => pyRoundTo 2 (q.mul (Q.ofInt 100)))
    else some (Q.ofInt 0)
  let avgVotesPerPoll ←
    if 0 < totalPolls then
      (safeDiv (Q.ofInt totalVotes) (Q.ofInt totalPolls)).map (pyRoundTo 2)
    else some (Q.ofInt 0)
  let engagementRate ←
    if 0 < s.users.length then
      (safeDiv (Q.ofInt (usersWhoVotedCount s)) (Q.ofInt s.users.length)).map
        (fun q => pyRoundTo 2 (q.mul (Q.ofInt 100)))
    else some (Q.ofInt 0)
  pure { completionRate := completionRate, avgVotesPerPoll := avgVotesPerPoll,
         engagementRate := engagementRate }

open PollNexus in
/-- Participation rate inside `top_polls` (`poll_system/views.py`):
`round(vote_count / User.objects.count() * 100, 2)` guarded by
`total_possible_votes > 0`. -/
def participation_rate (s : State) (voteCount : Nat) : Option Q :=
  if 0 < s.users.length then
    (safeDiv (Q.ofInt voteCount) (Q.ofInt s.users.length)).map
      (fun q => pyRoundTo 2 (q.mul (Q.ofInt 100)))
  else some (Q.ofInt 0)

/-- One entry of the `top_polls` response. -/
structure TopEntry where
  pollId : Nat
  title : String
  voteCount : Nat
  participationRate : PollNexus.Q
deriving DecidableEq

/-- Polls annotated with their vote count and restricted to those with
at least one vote
(`Poll.objects.annotate(vote_count=Count('votes')).filter(vote_count__gt=0)`). -/
def votedEntries (s : State) : List (Poll × Nat) :=
  (s.polls.map (fun p => (p, pollVoteCount s p.id))).filter (fun e => 0 < e.2)

open PollNexus in
/-- `top_polls` (`poll_system/views.py`): the annotated polls with at
least one vote, ordered by descending vote count and truncated to 10.
`participation_rate` never returns `none` (its division is guarded), so
the default is never used. -/
def top_polls (s : State) : List TopEntry :=
  ((sortDescBy (fun e => e.2) (votedEntries s)).take 10).map (fun e =>
    { pollId := e.1.id, title := e.1.title, voteCount := e.2,
      participationRate := (participation_rate s e.2).getD (Q.ofInt 0) })

/-- One entry of the `popular_polls` array of `analytics_data`. -/
structure PopularEntry where
  pollId : Nat
  title : String
  voteCount : Nat
deriving DecidableEq

open PollNexus in
/-- `popular_polls` inside the (second, effective) `analytics_data`
(`poll_system/views.py`): the *first five* polls in the default ordering
(newest first) are taken, and only those five are then sorted by
descending vote count. -/
def analytics_data_popular (s : State) : List PopularEntry :=
  let firstFive := (s.polls.take 5).map (fun p =>
    { pollId := p.id, title := p.title,
      voteCount := pollVoteCount s p.id : PopularEntry })
  (sortDescBy (fun e => e.voteCount) firstFive).take 5

end PS

namespace PollsApp

/-! ## Schema of app `polls` (`polls/models.py`) -/

/-- Row of `polls.models.Poll` (owner field is `created_by`, nullable). -/
structure Poll where
  id : Nat
  title : String
  description : String
  isActive : Bool
  createdBy : Option Nat
  expiresAt : Option Nat
deriving DecidableEq

/-- Row of `polls.models.Option` (named `Opt` here so the core `Option`
type is not shadowed). -/
structure Opt where
  id : Nat
  pollId : Nat
  text : String
  order : Nat
deriving DecidableEq

/-- Row of `polls.models.Vote`: a foreign key to the option only (the
poll is reached through the option) and an anonymous voter identity
`(voter_ip, voter_session)`.
`Meta.unique_together = ['option', 'voter_ip', 'voter_session']`. -/
structure Vote where
  id : Nat
  optionId : Nat
  voterIp : String
  voterSession : String
deriving DecidableEq

/-- Store of app `polls`. -/
structure State where
  polls : List Poll
  options : List Opt
  votes : List Vote
  users : List Nat
deriving DecidableEq

/-- `Vote.poll` property: the poll of the vote's option. -/
def votePollId (s : State) (v : Vote) : Option Nat :=
  (s.options.find? (fun o => o.id == v.optionId)).map (·.pollId)

/-- The `unique_together = ['option', 'voter_ip', 'voter_session']`
constraint of `polls.models.Vote`: no two distinct vote rows share
option and voter identity. -/
def uniqueOptIpSession (s : State) : Prop :=
  s.votes.Pairwise (fun a b =>
    ¬(a.optionId = b.optionId ∧ a.voterIp = b.voterIp ∧
      a.voterSession = b.voterSession))

instance (s : State) : Decidable (uniqueOptIpSession s) := by
  unfold uniqueOptIpSession; infer_instance

/-- Two votes reference the same poll with the same anonymous voter
identity. -/
def samePollSameIdentity (s : State) (a b : Vote) : Prop :=
  (votePollId s a).isSome ∧ votePollId s a = votePollId s b ∧
    a.voterIp = b.voterIp ∧ a.voterSession = b.voterSession

instance (s : State) (a b : Vote) : Decidable (samePollSameIdentity s a b) := by
  unfold samePollSameIdentity; infer_instance

/-- At most one vote row per poll and anonymous voter identity. -/
def atMostOnePerPollIdentity (s : State) : Prop :=
  s.votes.Pairwise (fun a b => ¬ samePollSameIdentity s a b)

instance (s : State) : Decidable (atMostOnePerPollIdentity s) := by
  unfold atMostOnePerPollIdentity; infer_instance

/-- `Vote.objects.filter(option=option).count()` (`Option.vote_count`). -/
def optionVoteCount (s : State) (optionId : Nat) : Nat :=
  (s.votes.filter (fun v => v.optionId == optionId)).length

/-- `Vote.objects.filter(option__poll=poll).count()` (`Poll.total_votes`). -/
def pollTotalVotes (s : State) (pollId : Nat) : Nat :=
  (s.votes.filter (fun v => votePollId s v == some pollId)).length

/-- One row of `Poll.get_results` / of the `poll_results` view. -/
structure GRow where
  optionId : Nat
  text : String
  votes : Nat
  percentage : PollNexus.Q
deriving DecidableEq

open PollNexus in
/-- `Poll.get_results` (`polls/models.py`): per-option vote count and
percentage `count / total_votes * 100` when `total_votes > 0` (else 0),
rounded to **2** decimal places. -/
def get_results (s : State) (pollId : Nat) : List GRow :=
  let total := pollTotalVotes s pollId
  (s.options.filter (fun o => o.pollId == pollId)).map (fun o =>
    let vc := optionVoteCount s o.id
    { optionId := o.id, text := o.text, votes := vc,
      percentage :=
        pyRoundTo 2 (if 0 < total then Q.pct vc total else Q.ofInt 0) })

open PollNexus in
/-- The `poll_results` DRF view (`polls/views.py`): like `get_results`
but with the percentage left **unrounded**; `none` models the 404 for a
missing poll. -/
def poll_results (s : State) (pollId : Nat) :
    Option (Nat × List GRow) :=
  match s.polls.find? (fun p => p.id == pollId) with
  | none => none
  | some poll =>
    let total := pollTotalVotes s poll.id
    some (total,
      (s.options.filter (fun o => o.pollId == poll.id)).map (fun o =>
        let vc := optionVoteCount s o.id
        { optionId := o.id, text := o.text, votes := vc,
          percentage := if 0 < total then Q.pct vc total else Q.ofInt 0 }))

/-- The three rates of `analytics_detailed`. -/
structure ADStats where
  completionRate : PollNexus.Q
  avgVotesPerPoll : PollNexus.Q
  engagementRate : PollNexus.Q
deriving DecidableEq

open PollNexus in
/-- The `completionRate` expression of `analytics_detailed`
(`polls/views.py` line 232):
`round(total_votes / (total_polls * 10) * 100)` behind a
`total_polls > 0` guard. -/
def ad_completionRate (s : State) : Option Q :=
  if 0 < s.polls.length then
    (safeDiv (Q.ofInt s.votes.length) (Q.ofInt (s.polls.length * 10))).map
      (fun q => Q.ofInt (pyRoundInt (q.mul (Q.ofInt 100))))
  else some (Q.ofInt 0)

open PollNexus in
/-- The `avgVotesPerPoll` value of `analytics_detailed`
(`polls/views.py` lines 223–225 and 233): `total_votes / total_polls`
when `total_polls > 0`, else 0, rounded to 1 decimal place. -/
def ad_avgVotesPerPoll (s : State) : Option Q :=
  (if 0 < s.polls.length then
      safeDiv (Q.ofInt s.votes.length) (Q.ofInt s.polls.length)
    else some (Q.ofInt 0)).map (pyRoundTo 1)

open PollNexus in
/-- The `engagementRate` expression of `analytics_detailed`
(`polls/views.py` line 234):
`min(100, round(total_votes / (total_polls * 20) * 100))` behind a
`total_polls > 0` guard. -/
def ad_engagementRate (s : State) : Option Q :=
  if 0 < s.polls.length then
    (safeDiv (Q.ofInt s.votes.length) (Q.ofInt (s.polls.length * 20))).map
      (fun q => Q.ofInt (min 100 (pyRoundInt (q.mul (Q.ofInt 100)))))
  else some (Q.ofInt 0)

open PollNexus in
/-- `analytics_detailed` (`polls/views.py`).  The response dict evaluates
the three rate expressions and then `categoryDistribution`, which
iterates `Poll.objects.values('category')` — but `category` is **not** a
field of this app's `Poll` model, so Django raises `FieldError` inside
the `try` and the handler answers 500 for every store: the rates are
computed but never returned. -/
def analytics_detailed (s : State) : Option ADStats := do
  let _completionRate ← ad_completionRate s
  let _avgVotesPerPoll ← ad_avgVotesPerPoll s
  let _engagementRate ← ad_engagementRate s
  none

open PollNexus in
/-- Participation rate inside `analytics_top_polls` (`polls/views.py`):
`round(vote_count / 50 * 100)` when the count is positive, else 0 (the
divisor is the constant 50). -/
def top_participation (voteCount : Nat) : Option ℤ :=
  if 0 < voteCount then
    (safeDiv (Q.ofInt voteCount) (Q.ofInt 50)).map
      (fun q => pyRoundInt (q.mul (Q.ofInt 100)))
  else some 0

/-- One entry of the `analytics_top_polls` response. -/
structure TEntry where
  pollId : Nat
  title : String
  voteCount : Nat
  participationRate : ℤ
deriving DecidableEq

open PollNexus in
/-- The per-poll entries built by `analytics_top_polls` before sorting:
vote count through the option relation, participation capped at 100.
`top_participation` never returns `none` (its divisor is 50), so the
default is never used. -/
def analyticsEntries (s : State) : List TEntry :=
  s.polls.map (fun p =>
    let vc := pollTotalVotes s p.id
    { pollId := p.id, title := p.title, voteCount := vc,
      participationRate := min 100 ((top_participation vc).getD 0) : TEntry })

open PollNexus in
/-- `analytics_top_polls` (`polls/views.py`): the per-poll entries sorted
by descending vote count and truncated to 6. -/
def analytics_top_polls (s : State) : List TEntry :=
  (sortDescBy (fun e => e.voteCount) (analyticsEntries s)).take 6

open PollNexus in
/-- `create_poll` (`polls/views.py`).  `if not title` rejects an absent
or empty title; only `len(options) < 2` is checked — there is **no
maximum** on the number of options.  A request that passes validation
then calls `Poll.objects.create(..., category=category, ...)`, but
`category` is **not** a field of this app's `Poll` model: Django raises
`TypeError` ("unexpected keyword argument"), the handler's `except`
answers 500, and no poll row is ever created. -/
def create_poll (s : State) (userId : Nat) (title : Option String)
    (description category : String) (options : List String) :
    PollNexus.HttpResult × State :=
  match title with
  | none => (⟨400, false⟩, s)
  | some t =>
    if t == "" then (⟨400, false⟩, s)
    else if options.length < 2 then (⟨400, false⟩, s)
    else (⟨500, false⟩, s)

/-- The `options` field of `PollCreateSerializer`
(`polls/serializers.py`): a list of 2–10 strings, each 2–200 characters,
all distinct (`validate_options`). -/
def serializer_options_valid (options : List String) : Bool :=
  decide (2 ≤ options.length) && decide (options.length ≤ 10) &&
    options.all (fun t => decide (2 ≤ t.length) && decide (t.length ≤ 200)) &&
    (options.dedup.length == options.length)

/-- `edit_poll` (`polls/views.py`).  The poll is fetched with
`get_object_or_404(Poll, id=poll_id, created_by=request.user)`; for a
non-creator (or a missing poll) the raised `Http404` is caught by the
handler's own `except Exception` and surfaced as 500.  On the creator
path the handler evaluates `poll.category` as the default of
`data.get('category', poll.category)` — but `category` is **not** a
field of this app's `Poll` model, so `AttributeError` is raised before
`poll.save()` and the same `except` answers 500 with nothing persisted.
Every request therefore yields 500 with the store unchanged.  The
`title`/`description`/`options`/`optIdBase` arguments are kept for the
handler's signature. -/
def edit_poll (s : State) (userId pollId : Nat)
    (title description : Option String) (options : Option (List String))
    (optIdBase : Nat) : PollNexus.HttpResult × State :=
  match s.polls.find? (fun p => p.id == pollId && p.createdBy == some userId) with
  | none => (⟨500, false⟩, s)
  | some _ => (⟨500, false⟩, s)

end PollsApp

namespace Spec

open PollNexus

/-- `optionResults` percentage as the spec words it, with the rounding
precision as a parameter: `count/totalVotes×100` rounded to `digits`
decimal places, and 0 when `totalVotes = 0`. -/
def percentage (digits count total : ℕ) : Q :=
  if total = 0 then Q.ofInt 0 else pyRoundTo digits (Q.pct count total)

/-- Unrounded percentage: `count/totalVotes×100`, 0 when `totalVotes = 0`. -/
def rawPercentage (count total : ℕ) : Q :=
  if total = 0 then Q.ofInt 0 else Q.pct count total

/-- Completion rate as the spec words it, over the `poll_system` store:
`(polls with ≥ 1 vote) / (total polls) × 100`, 0 when there are no
polls. -/
def completionRatePS (s : PS.State) : Q :=
  if s.polls.length = 0 then Q.ofInt 0
  else
    Q.pct ((s.polls.filter (fun p => s.votes.any (fun v => v.pollId == p.id))).length)
      s.polls.length

/-- Completion rate as the spec words it, over the `polls` store (a vote
references its poll through its option). -/
def completionRatePolls (s : PollsApp.State) : Q :=
  if s.polls.length = 0 then Q.ofInt 0
  else
    Q.pct
      ((s.polls.filter
        (fun p => s.votes.any (fun v => PollsApp.votePollId s v == some p.id))).length)
      s.polls.length

end Spec

/-! ## Concrete stores used by counterexamples and witnesses -/

/-- `polls`-app store: one poll with two options, and two votes cast by
the same anonymous identity `(10.0.0.9, sess1)` on the two different
options of that poll.  Both votes are admissible under the declared
`unique_together = ['option', 'voter_ip', 'voter_session']` constraint. -/
def dupIdentityStore : PollsApp.State :=
  { polls := [{ id := 1, title := "Lunch?", description := "", isActive := true,
                createdBy := some 1, expiresAt := none }],
    options := [{ id := 1, pollId := 1, text := "Pizza", order := 0 },
                { id := 2, pollId := 1, text := "Sushi", order := 1 }],
    votes := [{ id := 1, optionId := 1, voterIp := "10.0.0.9", voterSession := "sess1" },
              { id := 2, optionId := 2, voterIp := "10.0.0.9", voterSession := "sess1" }],
    users := [] }

/-- `poll_system` store: poll 1 (creator 1) with options 1 and 2, one
existing vote by user 2 on option 1, two registered users. -/
def psVotedStore : PS.State :=
  { polls := [{ id := 1, title := "Lunch?", description := "", category := "",
                creator := 1, isActive := true, expiresAt := none }],
    options := [{ id := 1, pollId := 1, text := "Pizza" },
                { id := 2, pollId := 1, text := "Sushi" }],
    votes := [{ id := 1, pollId := 1, optionId := 1, userId := 2, ipAddress := none }],
    users := [1, 2] }

/-- `polls`-app store: one poll with two options and three votes (one for
option 1, two for option 2), all by distinct anonymous identities. -/
def threeVotesStore : PollsApp.State :=
  { polls := [{ id := 1, title := "Lunch?", description := "", isActive := true,
                createdBy := some 1, expiresAt := none }],
    options := [{ id := 1, pollId := 1, text := "Pizza", order := 0 },
                { id := 2, pollId := 1, text := "Sushi", order := 1 }],
    votes := [{ id := 1, optionId := 1, voterIp := "10.0.0.1", voterSession := "a" },
              { id := 2, optionId := 2, voterIp := "10.0.0.2", voterSession := "b" },
              { id := 3, optionId := 2, voterIp := "10.0.0.3", voterSession := "c" }],
    users := [] }

/-- `poll_system` store: poll 1 with options 1 and 2 and three votes by
users 2, 3 and 4 (one for option 1, two for option 2). -/
def psThreeVotesStore : PS.State :=
  { polls := [{ id := 1, title := "Lunch?", description := "", category := "",
                creator := 1, isActive := true, expiresAt := none }],
    options := [{ id := 1, pollId := 1, text := "Pizza" },
                { id := 2, pollId := 1, text := "Sushi" }],
    votes := [{ id := 1, pollId := 1, optionId := 1, userId := 2, ipAddress := none },
              { id := 2, pollId := 1, optionId := 2, userId := 3, ipAddress := none },
              { id := 3, pollId := 1, optionId := 2, userId := 4, ipAddress := none }],
    users := [1, 2, 3, 4] }

/-- `poll_system` store with two polls: poll 1 (option 1) and poll 2
(option 2), both by creator 1, no votes. -/
def twoPollStore : PS.State :=
  { polls := [{ id := 2, title := "Second", description := "", category := "",
                creator := 1, isActive := true, expiresAt := none },
              { id := 1, title := "First", description := "", category := "",
                creator := 1, isActive := true, expiresAt := none }],
    options := [{ id := 1, pollId := 1, text := "A" },
                { id := 2, pollId := 2, text := "B" }],
    votes := [],
    users := [1, 2] }

/-- `polls`-app store: one poll, one option, one vote — the smallest
store on which `analytics_detailed`'s `completionRate` formula can be
compared with the spec's. -/
def onePollOneVoteStore : PollsApp.State :=
  { polls := [{ id := 1, title := "T", description := "", isActive := true,
                createdBy := none, expiresAt := none }],
    options := [{ id := 1, pollId := 1, text := "A", order := 0 }],
    votes := [{ id := 1, optionId := 1, voterIp := "10.0.0.1", voterSession := "a" }],
    users := [] }

/-- `poll_system` store with six polls (newest first: ids 1..6, so poll 6
is the oldest) where only the oldest poll, poll 6, has a vote. -/
def sixPollStore : PS.State :=
  { polls := [{ id := 1, title := "P1", description := "", category := "",
                creator := 1, isActive := true, expiresAt := none },
              { id := 2, title := "P2", description := "", category := "",
                creator := 1, isActive := true, expiresAt := none },
              { id := 3, title := "P3", description := "", category := "",
                creator := 1, isActive := true, expiresAt := none },
              { id := 4, title := "P4", description := "", category := "",
                creator := 1, isActive := true, expiresAt := none },
              { id := 5, title := "P5", description := "", category := "",
                creator := 1, isActive := true, expiresAt := none },
              { id := 6, title := "P6", description := "", category := "",
                creator := 1, isActive := true, expiresAt := none }],
    options := [{ id := 61, pollId := 6, text := "A" }],
    votes := [{ id := 1, pollId := 6, optionId := 61, userId := 2, ipAddress := none }],
    users := [1, 2] }

/-- `polls`-app store with seven polls (ids 1..7), each with one option;
only poll 7 has a vote. -/
def sevenPollStore : PollsApp.State :=
  { polls := [{ id := 1, title := "P1", description := "", isActive := true,
                createdBy := none, expiresAt := none },
              { id := 2, title := "P2", description := "", isActive := true,
                createdBy := none, expiresAt := none },
              { id := 3, title := "P3", description := "", isActive := true,
                createdBy := none, expiresAt := none },
              { id := 4, title := "P4", description := "", isActive := true,
                createdBy := none, expiresAt := none },
              { id := 5, title := "P5", description := "", isActive := true,
                createdBy := none, expiresAt := none },
              { id := 6, title := "P6", description := "", isActive := true,
                createdBy := none, expiresAt := none },
              { id := 7, title := "P7", description := "", isActive := true,
                createdBy := none, expiresAt := none }],
    options := [{ id := 71, pollId := 7, text := "A", order := 0 }],
    votes := [{ id := 1, optionId := 71, voterIp := "10.0.0.1", voterSession := "a" }],
    users := [] }

/-- Empty `poll_system` store with one registered user. -/
def emptyPSStore : PS.State := { polls := [], options := [], votes := [], users := [1] }

/-- A PUT body renaming the poll and replacing its options. -/
def renameBody : PS.PutBody :=
  { title := some "Dinner?", description := none, category := none,
    options := ["Ramen", "Tacos"] }

/-! ## Helper lemmas -/

namespace PollNexus

theorem length_updateFirst (p : α → Bool) (f : α → α) :
    ∀ l : List α, (updateFirst p f l).length = l.length
  | [] => rfl
  | a :: as => by
    unfold updateFirst
    split
    · simp
    · simp [length_updateFirst p f as]

theorem mem_updateFirst {p : α → Bool} {f : α → α} :
    ∀ {l : List α} {x : α}, x ∈ updateFirst p f l →
      x ∈ l ∨ ∃ y ∈ l, p y = true ∧ x = f y := by
  intro l
  induction l with
  | nil => intro x hx; cases hx
  | cons a as ih =>
    intro x hx
    unfold updateFirst at hx
    by_cases hpa : p a = true
    · rw [if_pos hpa] at hx
      rcases List.mem_cons.1 hx with h | h
      · exact Or.inr ⟨a, List.mem_cons_self a as, hpa, h⟩
      · exact Or.inl (List.mem_cons_of_mem a h)
    · rw [if_neg hpa] at hx
      rcases List.mem_cons.1 hx with h | h
      · exact Or.inl (h ▸ List.mem_cons_self a as)
      · rcases ih h with h' | ⟨y, hy, hpy, hxy⟩
        · exact Or.inl (List.mem_cons_of_mem a h')
        · exact Or.inr ⟨y, List.mem_cons_of_mem a hy, hpy, hxy⟩

theorem updated_mem_updateFirst {p : α → Bool} {f : α → α} :
    ∀ {l : List α}, (∃ x ∈ l, p x = true) →
      ∃ y, p y = true ∧ f y ∈ updateFirst p f l := by
  intro l
  induction l with
  | nil => rintro ⟨x, hx, -⟩; cases hx
  | cons a as ih =>
    rintro ⟨x, hx, hpx⟩
    unfold updateFirst
    by_cases hpa : p a = true
    · exact ⟨a, hpa, by rw [if_pos hpa]; exact List.mem_cons_self _ _⟩
    · have hxas : x ∈ as := by
        rcases List.mem_cons.1 hx with h | h
        · exact absurd (h ▸ hpx) hpa
        · exact h
      rcases ih ⟨x, hxas, hpx⟩ with ⟨y, hpy, hmem⟩
      exact ⟨y, hpy, by rw [if_neg hpa]; exact List.mem_cons_of_mem a hmem⟩

theorem pairwise_updateFirst {R : α → α → Prop} {p : α → Bool} {f : α → α}
    (h1 : ∀ a b, R a b → R (f a) b) (h2 : ∀ a b, R a b → R a (f b)) :
    ∀ {l : List α}, l.Pairwise R → (updateFirst p f l).Pairwise R := by
  intro l
  induction l with
  | nil => intro; exact List.Pairwise.nil
  | cons a as ih =>
    intro hl
    rcases List.pairwise_cons.1 hl with ⟨ha, has⟩
    unfold updateFirst
    by_cases hpa : p a = true
    · rw [if_pos hpa]
      exact List.pairwise_cons.2 ⟨fun b hb => h1 a b (ha b hb), has⟩
    · rw [if_neg hpa]
      refine List.pairwise_cons.2 ⟨?_, ih has⟩
      intro b hb
      rcases mem_updateFirst hb with h | ⟨y, hy, -, hby⟩
      · exact ha b h
      · exact hby ▸ h2 a y (ha y hy)

theorem sortDescBy_perm (key : α → ℕ) (l : List α) :
    (sortDescBy key l).Perm l :=
  List.perm_insertionSort _ l

theorem sortDescBy_sorted (key : α → ℕ) (l : List α) :
    (sortDescBy key l).Pairwise (fun a b => key b ≤ key a) := by
  letI : IsTotal α (fun a b => key b ≤ key a) :=
    ⟨fun a b => Nat.le_total (key b) (key a)⟩
  letI : IsTrans α (fun a b => key b ≤ key a) :=
    ⟨fun _ _ _ hab hbc => le_trans hbc hab⟩
  exact List.sorted_insertionSort _ l

theorem sortDescBy_take_sorted (key : α → ℕ) (l : List α) (k : ℕ) :
    ((sortDescBy key l).take k).Pairwise (fun a b => key b ≤ key a) :=
  (sortDescBy_sorted key l).sublist (List.take_sublist k _)

theorem sortDescBy_take_dominates (key : α → ℕ) (l : List α) (k : ℕ) :
    ∀ x ∈ (sortDescBy key l).take k, ∀ y ∈ l,
      y ∉ (sortDescBy key l).take k → key y ≤ key x := by
  intro x hx y hy hyn
  have hy' : y ∈ sortDescBy key l := ((sortDescBy_perm key l).mem_iff).2 hy
  have hsplit := List.take_append_drop k (sortDescBy key l)
  have hpw : ((sortDescBy key l).take k ++ (sortDescBy key l).drop k).Pairwise
      (fun a b => key b ≤ key a) := by
    rw [hsplit]; exact sortDescBy_sorted key l
  have hyd : y ∈ (sortDescBy key l).drop k := by
    rcases List.mem_append.1 (by rw [hsplit]; exact hy') with h | h
    · exact absurd h hyn
    · exact h
  exact (List.pairwise_append.1 hpw).2.2 x hx y hyd

theorem Q.mk'_zero (d : ℤ) : Q.mk' 0 d = Q.ofInt 0 := by
  unfold Q.mk' Q.ofInt
  split
  · rfl
  · rename_i hd
    have hd' : 0 < (if d < 0 then -d else d).toNat := by
      rcases lt_trichotomy d 0 with h | h | h
      · rw [if_pos h]; omega
      · exact absurd h hd
      · rw [if_neg (by omega)]; omega
    simp only [neg_zero, ite_self, Int.gcd_zero_left]
    have h1 : (Int.ofNat (if d < 0 then -d else d).toNat).natAbs
        = (if d < 0 then -d else d).toNat := rfl
    have h2 : (0 : ℤ) / (((if d < 0 then -d else d).toNat : ℕ) : ℤ) = 0 := by simp
    rw [h1, h2, Nat.div_self hd']

theorem pyRoundInt_zero : pyRoundInt (Q.ofInt 0) = 0 := by decide

theorem pyRoundTo_ofInt_zero (k : ℕ) : pyRoundTo k (Q.ofInt 0) = Q.ofInt 0 := by
  unfold pyRoundTo
  have h1 : (Q.ofInt 0).mul (Q.ofInt (10 ^ k)) = Q.ofInt 0 := by
    unfold Q.mul Q.ofInt
    simpa using Q.mk'_zero _
  rw [h1, pyRoundInt_zero, Q.mk'_zero]

end PollNexus

/-! ## Claim C1 -/

/-- C1 (counterexample): in the `polls` app the declared uniqueness
constraint is `unique_together = ['option', 'voter_ip', 'voter_session']`,
which is per *option*, not per poll: `dupIdentityStore` satisfies the
constraint yet holds two vote rows referencing poll 1 with the same
anonymous voter identity, so the constraint does not enforce at most one
vote per (poll, voter identity). -/
theorem C1_option_constraint_allows_double_poll_vote :
    PollsApp.uniqueOptIpSession dupIdentityStore ∧
    ¬ PollsApp.atMostOnePerPollIdentity dupIdentityStore := by decide

/-- C1 (amended): in the `poll_system` app, whose votes carry an
authenticated user, the per-(poll, user) uniqueness invariant does hold
and is preserved by every `vote_poll` request (the handler updates the
existing row instead of inserting a second one). -/
theorem C1_vote_poll_preserves_unique_poll_user (s : PS.State)
    (pollId userId : Nat) (optionId : Option Nat) (newVoteId : Nat)
    (h : PS.uniquePollUser s) :
    PS.uniquePollUser (PS.vote_poll s pollId userId optionId newVoteId).2 := by
  unfold PS.vote_poll
  split
  · exact h
  split
  · exact h
  split
  · exact h
  split
  · exact h
  split
  · dsimp only
    unfold PS.uniquePollUser at h ⊢
    refine PollNexus.pairwise_updateFirst ?_ ?_ h
    · exact fun a b hab => hab
    · exact fun a b hab => hab
  · rename_i optionId2 oid hne xp poll hfp xo opt hfo xv hfv
    dsimp only
    unfold PS.uniquePollUser at h ⊢
    have hnone := List.find?_eq_none.1 hfv
    refine List.pairwise_append.2 ⟨h, List.pairwise_singleton _ _, ?_⟩
    intro a ha b hb
    have hb' : b = (⟨newVoteId, poll.id, opt.id, userId, none⟩ : PS.Vote) := by
      simpa using hb
    subst hb'
    rintro ⟨hpoll, huser⟩
    exact hnone a ha (by simp [hpoll, huser])

/-- C1 (witness for the amended theorem): on `psVotedStore`, whose vote
table satisfies the per-(poll, user) constraint, a re-vote by user 2
leaves the constraint satisfied. -/
theorem C1_vote_poll_preserves_unique_poll_user_witness :
    PS.uniquePollUser (PS.vote_poll psVotedStore 1 2 (some 2) 9).2 :=
  C1_vote_poll_preserves_unique_poll_user psVotedStore 1 2 (some 2) 9 (by decide)

/-! ## Claim C2 -/

/-- C2 (counterexample): on a poll with 3 votes of which option 1 has 1,
`polls.models.Poll.get_results` reports 33.33 — the percentage rounded
to **2** decimal places — which differs from the 1-decimal rounding
(33.3) that the claim asserts. -/
theorem C2_get_results_rounds_to_two_decimals :
    ((PollsApp.get_results threeVotesStore 1).map (fun e => e.percentage))
      = [PollNexus.Q.mk' 3333 100, PollNexus.Q.mk' 6667 100] ∧
    PollNexus.Q.mk' 3333 100 ≠ Spec.percentage 1 1 3 := by decide

/-- C2 (amended): every results computation returns, per option, its vote
count and `count/totalVotes×100` with percentage 0 when `totalVotes = 0`,
but the rounding differs per implementation: `poll_system`'s
`poll_results` rounds to 1 decimal place, `polls`' `Poll.get_results`
rounds to 2, and the `polls` `poll_results` view does not round at all. -/
theorem C2_results_percentages (s : PS.State) (s2 : PollsApp.State) (pid : Nat) :
    (∀ e ∈ ((PS.poll_results s pid).map Prod.snd).getD [],
       e.percentage = Spec.percentage 1 e.voteCount (PS.pollVoteCount s pid)) ∧
    (∀ e ∈ PollsApp.get_results s2 pid,
       e.percentage = Spec.percentage 2 e.votes (PollsApp.pollTotalVotes s2 pid)) ∧
    (∀ e ∈ ((PollsApp.poll_results s2 pid).map Prod.snd).getD [],
       e.percentage = Spec.rawPercentage e.votes (PollsApp.pollTotalVotes s2 pid)) := by
  refine ⟨?_, ?_, ?_⟩
  · cases hfp : PS.findPoll s pid with
    | none => simp [PS.poll_results, hfp]
    | some poll =>
      have hpid : poll.id = pid := by
        unfold PS.findPoll at hfp
        have h1 := List.find?_some hfp
        exact beq_iff_eq.mp h1
      intro e he
      simp only [PS.poll_results, hfp, Option.map_some', Option.getD_some,
        List.mem_map, List.mem_filter] at he
      obtain ⟨o, ho, rfl⟩ := he
      simp only [hpid]
      rcases Nat.eq_zero_or_pos (PS.pollVoteCount s pid) with hz | hp
      · simp [hz, Spec.percentage, PollNexus.pyRoundTo_ofInt_zero]
      · simp [Spec.percentage, hp, Nat.pos_iff_ne_zero.1 hp]
  · intro e he
    simp only [PollsApp.get_results, List.mem_map, List.mem_filter] at he
    obtain ⟨o, ho, rfl⟩ := he
    rcases Nat.eq_zero_or_pos (PollsApp.pollTotalVotes s2 pid) with hz | hp
    · simp [hz, Spec.percentage, PollNexus.pyRoundTo_ofInt_zero]
    · simp [Spec.percentage, hp, Nat.pos_iff_ne_zero.1 hp]
  · cases hfp : s2.polls.find? (fun p => p.id == pid) with
    | none => simp [PollsApp.poll_results, hfp]
    | some poll =>
      have hpid : poll.id = pid := by
        have h1 := List.find?_some hfp
        exact beq_iff_eq.mp h1
      intro e he
      simp only [PollsApp.poll_results, hfp, Option.map_some', Option.getD_some,
        List.mem_map, List.mem_filter] at he
      obtain ⟨o, ho, rfl⟩ := he
      simp only [hpid]
      rcases Nat.eq_zero_or_pos (PollsApp.pollTotalVotes s2 pid) with hz | hp
      · simp [hz, Spec.rawPercentage]
      · simp [Spec.rawPercentage, hp, Nat.pos_iff_ne_zero.1 hp]

/-- C2 (witness for the amended theorem): on `psThreeVotesStore` the
option-1 entry of `poll_results` carries percentage 33.3, the 1-decimal
rounding of 1/3 of the votes. -/
theorem C2_results_percentages_witness :
    ({ optionId := 1, text := "Pizza", voteCount := 1,
       percentage := PollNexus.Q.mk' 333 10 : PS.ResultEntry }).percentage
      = Spec.percentage 1 1 3 :=
  (C2_results_percentages psThreeVotesStore threeVotesStore 1).1
    ⟨1, "Pizza", 1, PollNexus.Q.mk' 333 10⟩ (by decide)

/-! ## Claim C3 -/

open PollNexus

/-- Closed form of `PS.detailed_statistics`: the do-chain always
succeeds, each rate guarded by its denominator's positivity. -/
theorem detailed_statistics_eq (s : PS.State) :
    PS.detailed_statistics s = some
      { completionRate := if 0 < s.polls.length
          then pyRoundTo 2 ((Q.div (Q.ofInt (PS.pollsWithVotesCount s))
            (Q.ofInt s.polls.length)).mul (Q.ofInt 100))
          else Q.ofInt 0,
        avgVotesPerPoll := if 0 < s.polls.length
          then pyRoundTo 2 (Q.div (Q.ofInt s.votes.length) (Q.ofInt s.polls.length))
          else Q.ofInt 0,
        engagementRate := if 0 < s.users.length
          then pyRoundTo 2 ((Q.div (Q.ofInt (PS.usersWhoVotedCount s))
            (Q.ofInt s.users.length)).mul (Q.ofInt 100))
          else Q.ofInt 0 } := by
  unfold PS.detailed_statistics
  rcases Nat.eq_zero_or_pos s.polls.length with hp | hp
  · rcases Nat.eq_zero_or_pos s.users.length with hu | hu
    · simp [hp, hu, safeDiv, Q.ofInt]
    · simp [hp, hu, Nat.pos_iff_ne_zero.1 hu, safeDiv, Q.ofInt, Nat.cast_eq_zero]
  · rcases Nat.eq_zero_or_pos s.users.length with hu | hu
    · simp [hp, hu, Nat.pos_iff_ne_zero.1 hp, safeDiv, Q.ofInt, Nat.cast_eq_zero]
    · simp [hp, hu, Nat.pos_iff_ne_zero.1 hp, Nat.pos_iff_ne_zero.1 hu, safeDiv,
        Q.ofInt, Nat.cast_eq_zero]

/-- The `completionRate` expression of `analytics_detailed` always
evaluates (its division is guarded). -/
theorem ad_completionRate_isSome (s : PollsApp.State) :
    (PollsApp.ad_completionRate s).isSome := by
  unfold PollsApp.ad_completionRate
  rcases Nat.eq_zero_or_pos s.polls.length with hp | hp
  · simp [hp]
  · simp [hp, Nat.pos_iff_ne_zero.1 hp, safeDiv, Q.ofInt, Nat.cast_eq_zero]

/-- The `avgVotesPerPoll` value of `analytics_detailed` always evaluates
(its division is guarded). -/
theorem ad_avgVotesPerPoll_isSome (s : PollsApp.State) :
    (PollsApp.ad_avgVotesPerPoll s).isSome := by
  unfold PollsApp.ad_avgVotesPerPoll
  rcases Nat.eq_zero_or_pos s.polls.length with hp | hp
  · simp [hp]
  · simp [hp, Nat.pos_iff_ne_zero.1 hp, safeDiv, Q.ofInt, Nat.cast_eq_zero]

/-- The `engagementRate` expression of `analytics_detailed` always
evaluates (its division is guarded). -/
theorem ad_engagementRate_isSome (s : PollsApp.State) :
    (PollsApp.ad_engagementRate s).isSome := by
  unfold PollsApp.ad_engagementRate
  rcases Nat.eq_zero_or_pos s.polls.length with hp | hp
  · simp [hp]
  · simp [hp, Nat.pos_iff_ne_zero.1 hp, safeDiv, Q.ofInt, Nat.cast_eq_zero]

/-- The `analytics_detailed` handler answers 500 for every store: after
the three rates evaluate, building `categoryDistribution` raises
`FieldError` on the undeclared `category` field. -/
theorem analytics_detailed_none (s : PollsApp.State) :
    PollsApp.analytics_detailed s = none := by
  obtain ⟨c, hc⟩ := Option.isSome_iff_exists.1 (ad_completionRate_isSome s)
  obtain ⟨a, ha⟩ := Option.isSome_iff_exists.1 (ad_avgVotesPerPoll_isSome s)
  obtain ⟨e, he⟩ := Option.isSome_iff_exists.1 (ad_engagementRate_isSome s)
  simp [PollsApp.analytics_detailed, hc, ha, he]

/-- C3: every percentage/rate computation of the aggregation layer —
the three rates of `poll_system`'s `detailed_statistics`,
`PollOption.vote_percentage`, `top_polls`' participation rate, the three
rate expressions of `polls`' `analytics_detailed` and
`analytics_top_polls`' participation rate — never hits an unguarded zero
divisor (the checked computation always returns a value) and yields 0 in
the empty cases: no polls, no users, a poll with no votes, an option
with no votes.  (The `analytics_detailed` *handler* later fails with a
`FieldError` over the undeclared `category` field — see
`analytics_detailed_none` — but its rate expressions are evaluated
before that point and their division guards all hold.) -/
theorem C3_rates_guard_zero_denominators :
    (∀ s : PS.State, (PS.detailed_statistics s).isSome) ∧
    (∀ s : PS.State, s.polls = [] →
      (PS.detailed_statistics s).map
          (fun st => (st.completionRate, st.avgVotesPerPoll))
        = some (Q.ofInt 0, Q.ofInt 0)) ∧
    (∀ s : PS.State, s.users = [] →
      (PS.detailed_statistics s).map (fun st => st.engagementRate)
        = some (Q.ofInt 0)) ∧
    (∀ (s : PS.State) (o : PS.PollOption), (PS.vote_percentage s o).isSome) ∧
    (∀ (s : PS.State) (o : PS.PollOption), PS.pollVoteCount s o.pollId = 0 →
      PS.vote_percentage s o = some (Q.ofInt 0)) ∧
    (∀ (s : PS.State) (vc : Nat), (PS.participation_rate s vc).isSome) ∧
    (∀ (s : PS.State) (vc : Nat), s.users = [] →
      PS.participation_rate s vc = some (Q.ofInt 0)) ∧
    (∀ s : PollsApp.State, (PollsApp.ad_completionRate s).isSome ∧
      (PollsApp.ad_avgVotesPerPoll s).isSome ∧
      (PollsApp.ad_engagementRate s).isSome) ∧
    (∀ s : PollsApp.State, s.polls = [] →
      PollsApp.ad_completionRate s = some (Q.ofInt 0) ∧
      PollsApp.ad_avgVotesPerPoll s = some (Q.ofInt 0) ∧
      PollsApp.ad_engagementRate s = some (Q.ofInt 0)) ∧
    (∀ vc : Nat, (PollsApp.top_participation vc).isSome) ∧
    PollsApp.top_participation 0 = some 0 := by
  refine ⟨?_, ?_, ?_, ?_, ?_, ?_, ?_, ?_, ?_, ?_, ?_⟩
  · intro s; rw [detailed_statistics_eq]; rfl
  · intro s hs; rw [detailed_statistics_eq]; simp [hs]
  · intro s hs; rw [detailed_statistics_eq]; simp [hs]
  · intro s o
    unfold PS.vote_percentage
    rcases Nat.eq_zero_or_pos (PS.pollVoteCount s o.pollId) with hz | hp
    · simp [hz]
    · simp [Nat.pos_iff_ne_zero.1 hp, safeDiv, Q.ofInt, Nat.cast_eq_zero]
  · intro s o hz
    unfold PS.vote_percentage
    simp [hz]
  · intro s vc
    unfold PS.participation_rate
    rcases Nat.eq_zero_or_pos s.users.length with hz | hp
    · simp [hz]
    · simp [hp, Nat.pos_iff_ne_zero.1 hp, safeDiv, Q.ofInt, Nat.cast_eq_zero]
  · intro s vc hs
    unfold PS.participation_rate
    simp [hs]
  · intro s
    exact ⟨ad_completionRate_isSome s, ad_avgVotesPerPoll_isSome s,
      ad_engagementRate_isSome s⟩
  · intro s hs
    refine ⟨?_, ?_, ?_⟩
    · unfold PollsApp.ad_completionRate; simp [hs]
    · unfold PollsApp.ad_avgVotesPerPoll; simp [hs, pyRoundTo_ofInt_zero]
    · unfold PollsApp.ad_engagementRate; simp [hs]
  · intro vc
    unfold PollsApp.top_participation
    rcases Nat.eq_zero_or_pos vc with hz | hp
    · simp [hz]
    · simp [hp, safeDiv, Q.ofInt]
  · rfl

/-- C3 (witness): on the empty store, the option-percentage computation
returns 0 rather than failing. -/
theorem C3_rates_guard_zero_denominators_witness :
    PS.vote_percentage emptyPSStore ⟨1, 1, "A"⟩ = some (Q.ofInt 0) :=
  C3_rates_guard_zero_denominators.2.2.2.2.1 emptyPSStore ⟨1, 1, "A"⟩ (by decide)

/-! ## Claim C4 -/

/-- C4 (counterexample): user 2 is not the creator of poll 1 of
`psVotedStore`, yet a DELETE through the function-based `delete_poll`
handler answers 500 (the `created_by` lookup kwarg does not exist on
this app's `Poll` model, so `FieldError` is caught by the generic
`except`), not the 403 `PermissionDenied` the claim asserts; the store
is unchanged. -/
theorem C4_delete_poll_returns_500_not_403 :
    PS.delete_poll psVotedStore 2 1 = (⟨500, false⟩, psVotedStore) ∧
    (PS.delete_poll psVotedStore 2 1).1.status ≠ 403 := by decide

/-- C4 (amended): a non-creator's edit or delete request always fails
and leaves the store unchanged, but the status code depends on the
handler: the consolidated `poll_detail` PUT and DELETE branches answer
403 (before even reading the payload); the function-based `delete_poll`
answers 500 for *every* request, because its `created_by` lookup kwarg
names a field this app's `Poll` does not declare (`FieldError` caught by
the generic `except`); and the `polls` app's `edit_poll` answers 500 for
every request too (the ownership `Http404` — or, for the creator, the
`AttributeError` on the undeclared `poll.category` — is swallowed by its
catch-all). -/
theorem C4_non_creator_requests_fail :
    (∀ (s : PS.State) (uid pid : Nat) (body : PS.PutBody) (obase : Nat)
       (poll : PS.Poll), PS.findPoll s pid = some poll → poll.creator ≠ uid →
       PS.poll_detail_put s true uid pid body obase = (⟨403, false⟩, s)) ∧
    (∀ (s : PS.State) (uid pid : Nat) (poll : PS.Poll),
       PS.findPoll s pid = some poll → poll.creator ≠ uid →
       PS.poll_detail_delete s true uid pid = (⟨403, false⟩, s)) ∧
    (∀ (s : PS.State) (uid pid : Nat),
       PS.delete_poll s uid pid = (⟨500, false⟩, s)) ∧
    (∀ (s2 : PollsApp.State) (uid pid : Nat) (t d : Option String)
       (o : Option (List String)) (obase : Nat),
       PollsApp.edit_poll s2 uid pid t d o obase = (⟨500, false⟩, s2)) := by
  refine ⟨?_, ?_, ?_, ?_⟩
  · intro s uid pid body obase poll hfp hne
    unfold PS.poll_detail_put
    rw [hfp]
    simp [hne, beq_iff_eq]
  · intro s uid pid poll hfp hne
    unfold PS.poll_detail_delete
    rw [hfp]
    simp [hne, beq_iff_eq]
  · intro s uid pid
    rfl
  · intro s2 uid pid t d o obase
    unfold PollsApp.edit_poll
    split <;> rfl

/-- C4 (witness for the amended theorem): the non-creator PUT on
`psVotedStore` is refused with 403 and the store is unchanged. -/
theorem C4_non_creator_requests_fail_witness :
    PS.poll_detail_put psVotedStore true 2 1 renameBody 50
      = (⟨403, false⟩, psVotedStore) :=
  C4_non_creator_requests_fail.1 psVotedStore 2 1 renameBody 50
    ⟨1, "Lunch?", "", "", 1, true, none⟩ (by decide) (by decide)

/-! ## Claim C5 -/

/-- C5 (counterexample): in the `polls` app's `create_poll` handler a
request with 11 options passes validation (only the lower bound is
checked) and then hits the unconditional `TypeError` on the undeclared
`category` kwarg of `Poll.objects.create`, answering 500 — not the
claimed validation 400; and a request with the claimed-valid 2 options
hits the same 500 instead of succeeding. -/
theorem C5_polls_create_never_succeeds :
    PollsApp.create_poll onePollOneVoteStore 1 (some "Best language?") ""
        "general"
        ["a1", "a2", "a3", "a4", "a5", "a6", "a7", "a8", "a9", "a10", "a11"]
      = (⟨500, false⟩, onePollOneVoteStore) ∧
    PollsApp.create_poll onePollOneVoteStore 1 (some "Best language?") ""
        "general" ["Python", "Rust"]
      = (⟨500, false⟩, onePollOneVoteStore) := by decide

/-- C5 (amended): with a valid title, creation with 1 option fails with
400 in every variant; 2 or 10 options succeed in `poll_system`'s
`create_poll` and pass `PollCreateSerializer`, and 11 fail there (400 /
invalid).  The `polls` app's `create_poll`, however, checks only the
lower bound and then always answers 500 with no poll created — its
`Poll.objects.create` passes a `category` kwarg that this app's `Poll`
model does not declare (`TypeError`) — so there 2, 10 and 11 options
alike yield 500: 11 entries are not rejected with a validation 400, and
no creation ever succeeds. -/
theorem C5_option_count_bounds (title desc cat : String) (s : PS.State)
    (s2 : PollsApp.State) (uid npid obase : Nat) (opts : List String)
    (ht : pyStrip title ≠ "") :
    ((opts.length = 1 ∨ opts.length = 11) →
       (PS.create_poll s uid title desc cat opts npid obase).1 = ⟨400, false⟩) ∧
    ((opts.length = 2 ∨ opts.length = 10) →
       (PS.create_poll s uid title desc cat opts npid obase).1 = ⟨200, true⟩) ∧
    (opts.length = 1 →
       PollsApp.create_poll s2 uid (some title) desc cat opts
         = (⟨400, false⟩, s2)) ∧
    (2 ≤ opts.length →
       PollsApp.create_poll s2 uid (some title) desc cat opts
         = (⟨500, false⟩, s2)) ∧
    ((opts.length = 1 ∨ opts.length = 11) →
       PollsApp.serializer_options_valid opts = false) ∧
    ((opts.length = 2 ∨ opts.length = 10) → opts.Nodup →
       (∀ t ∈ opts, 2 ≤ t.length ∧ t.length ≤ 200) →
       PollsApp.serializer_options_valid opts = true) := by
  have htitle : title ≠ "" := by
    intro h
    exact ht (by rw [h]; decide)
  have ht' : (pyStrip title == "") = false := by simp [ht]
  refine ⟨?_, ?_, ?_, ?_, ?_, ?_⟩
  · intro h
    unfold PS.create_poll
    rcases h with h | h <;> simp [ht', h]
  · intro h
    unfold PS.create_poll
    rcases h with h | h <;> simp [ht', h]
  · intro h
    unfold PollsApp.create_poll
    simp [htitle, h]
  · intro h
    unfold PollsApp.create_poll
    have hnl : ¬ opts.length < 2 := by omega
    simp [htitle, hnl]
  · intro h
    unfold PollsApp.serializer_options_valid
    rcases h with h | h <;> simp [h]
  · intro h hnodup hlen
    unfold PollsApp.serializer_options_valid
    have h1 : opts.dedup = opts := List.dedup_eq_self.2 hnodup
    rcases h with h | h <;>
      simp only [h, h1, List.all_eq_true, Bool.and_eq_true, decide_eq_true_eq,
        beq_self_eq_true, and_true] <;>
      exact ⟨by omega, fun t htm => ⟨(hlen t htm).1, (hlen t htm).2⟩⟩

/-- C5 (witness for the amended theorem): creating a poll with exactly
two options succeeds in `poll_system`. -/
theorem C5_option_count_bounds_witness :
    (PS.create_poll emptyPSStore 1 "Lunch?" "" "" ["Pizza", "Sushi"] 1 1).1
      = ⟨200, true⟩ :=
  (C5_option_count_bounds "Lunch?" "" "" emptyPSStore onePollOneVoteStore 1 1 1
    ["Pizza", "Sushi"] (by decide)).2.1 (Or.inl rfl)

/-! ## Claim C6 -/

/-- The annotate–filter–count pipeline of `detailed_statistics` counts
exactly the polls having at least one vote. -/
theorem pollsWithVotesCount_eq (s : PS.State) :
    PS.pollsWithVotesCount s
      = (s.polls.filter (fun p => s.votes.any (fun v => v.pollId == p.id))).length := by
  unfold PS.pollsWithVotesCount
  rw [List.filter_map, List.length_map]
  congr 1
  apply List.filter_congr
  intro p hp
  simp only [Function.comp, PS.pollVoteCount]
  cases hany : s.votes.any (fun v => v.pollId == p.id) with
  | true =>
    rcases List.any_eq_true.1 hany with ⟨v, hv, hvp⟩
    have : v ∈ s.votes.filter (fun v => v.pollId == p.id) :=
      List.mem_filter.2 ⟨hv, hvp⟩
    simp [List.length_pos, List.ne_nil_of_mem this]
  | false =>
    have : s.votes.filter (fun v => v.pollId == p.id) = [] := by
      apply List.filter_eq_nil_iff.2
      intro v hv
      exact fun hc => (List.any_eq_false.1 hany v hv) hc
    simp [this]

/-- C6 (amended): `poll_system`'s `detailed_statistics` returns the
spec's completion rate — (polls with ≥ 1 vote)/(total polls)×100, 0 when
there are no polls — rounded half-to-even to 2 decimal places; the
`polls` app's `analytics_detailed` never returns a completion rate at
all: the handler answers 500 on every store (a `FieldError` over the
undeclared `category` field aborts its response), and even the
`completionRate` expression it evaluates before failing follows a
different formula (see the counterexample). -/
theorem C6_completion_rate :
    (∀ s : PS.State,
       (PS.detailed_statistics s).map (fun st => st.completionRate)
         = some (pyRoundTo 2 (Spec.completionRatePS s))) ∧
    (∀ s2 : PollsApp.State, PollsApp.analytics_detailed s2 = none) := by
  constructor
  · intro s
    rw [detailed_statistics_eq]
    simp only [Option.map_some']
    congr 1
    unfold Spec.completionRatePS
    rcases Nat.eq_zero_or_pos s.polls.length with hz | hp
    · simp [hz, pyRoundTo_ofInt_zero]
    · rw [if_neg (Nat.pos_iff_ne_zero.1 hp), if_pos hp, pollsWithVotesCount_eq]
      rfl
  · exact analytics_detailed_none

/-- C6 (counterexample): on a store with one poll carrying one vote the
spec formula gives 100, but `polls`' `analytics_detailed` returns no
completion rate at all (500), and the `completionRate` expression it
evaluates before failing is `round(total_votes/(total_polls*10)*100)`
= 10. -/
theorem C6_polls_completion_rate_diverges :
    PollsApp.analytics_detailed onePollOneVoteStore = none ∧
    PollsApp.ad_completionRate onePollOneVoteStore = some (Q.ofInt 10) ∧
    Spec.completionRatePolls onePollOneVoteStore = Q.ofInt 100 ∧
    (Q.ofInt 10 : Q) ≠ Q.ofInt 100 := by decide

/-! ## Claim C7 -/

/-- C7 (counterexample): option 2 exists but belongs to poll 2, so a vote
on poll 1 naming it makes `get_object_or_404(PollOption, ...)` raise
`Http404`, which the handler's catch-all converts into a **500**
response — not the 400 the claim asserts; the store is unchanged. -/
theorem C7_wrong_option_gives_500_not_400 :
    (PS.vote_poll twoPollStore 1 2 (some 2) 5).1.status = 500 ∧
    (PS.vote_poll twoPollStore 1 2 (some 2) 5).1.status ≠ 400 ∧
    (PS.vote_poll twoPollStore 1 2 (some 2) 5).2 = twoPollStore := by decide

/-- C7 (amended): for an existing poll, `vote_poll` answers 400 with the
store unchanged when `option_id` is absent (or falsy 0); answers **500**
(generic error, the swallowed `Http404`) with the store unchanged when
the option does not belong to the poll; and on a valid option answers
200, updating the voter's existing vote row (store size unchanged) or
appending a new one (size + 1), so that a row for (poll, user) with the
chosen option exists afterwards and every row is either an old one or
the voter's. -/
theorem C7_vote_poll_behavior (s : PS.State) (pid uid : Nat)
    (oid : Option Nat) (nid : Nat) (poll : PS.Poll)
    (hfp : PS.findPoll s pid = some poll) :
    (oid = none → PS.vote_poll s pid uid oid nid = (⟨400, false⟩, s)) ∧
    (oid = some 0 → PS.vote_poll s pid uid oid nid = (⟨400, false⟩, s)) ∧
    (∀ o, oid = some o → o ≠ 0 → PS.findOption s o pid = none →
       PS.vote_poll s pid uid oid nid = (⟨500, false⟩, s)) ∧
    (∀ o opt, oid = some o → o ≠ 0 → PS.findOption s o pid = some opt →
       (PS.vote_poll s pid uid oid nid).1 = ⟨200, true⟩ ∧
       (PS.vote_poll s pid uid oid nid).2.votes.length
         = s.votes.length + (if (PS.findVote s pid uid).isSome then 0 else 1) ∧
       (∃ v ∈ (PS.vote_poll s pid uid oid nid).2.votes,
          v.pollId = pid ∧ v.userId = uid ∧ v.optionId = opt.id) ∧
       (∀ v ∈ (PS.vote_poll s pid uid oid nid).2.votes,
          v ∈ s.votes ∨ (v.pollId = pid ∧ v.userId = uid ∧ v.optionId = opt.id))) := by
  have hpid : poll.id = pid := by
    unfold PS.findPoll at hfp
    have h1 := List.find?_some hfp
    exact beq_iff_eq.mp h1
  refine ⟨?_, ?_, ?_, ?_⟩
  · rintro rfl; rfl
  · rintro rfl; rfl
  · intro o ho hne hfo
    subst ho
    simp [PS.vote_poll, hne, hfp, hpid, hfo]
  · intro o opt ho hne hfo
    subst ho
    cases hfv : PS.findVote s pid uid with
    | some v =>
      have hx : PS.vote_poll s pid uid (some o) nid
          = (⟨200, true⟩,
             { s with
                votes := PollNexus.updateFirst
                  (fun w => w.pollId == pid && w.userId == uid)
                  (fun w => { w with optionId := opt.id }) s.votes }) := by
        simp [PS.vote_poll, hne, hfp, hpid, hfo, hfv]
      rw [hx]
      refine ⟨rfl, ?_, ?_, ?_⟩
      · simp [hfv, PollNexus.length_updateFirst]
      · unfold PS.findVote at hfv
        have hv1 : v ∈ s.votes := List.mem_of_find?_eq_some hfv
        have hv2 := List.find?_some hfv
        obtain ⟨y, hpy, hymem⟩ :=
          PollNexus.updated_mem_updateFirst
            (p := fun w => w.pollId == pid && w.userId == uid)
            (f := fun w => { w with optionId := opt.id })
            ⟨v, hv1, hv2⟩
        simp only [Bool.and_eq_true, beq_iff_eq] at hpy
        exact ⟨{ y with optionId := opt.id }, hymem, hpy.1, hpy.2, rfl⟩
      · intro w hw
        rcases PollNexus.mem_updateFirst hw with h | ⟨y, hy, hpy, rfl⟩
        · exact Or.inl h
        · simp only [Bool.and_eq_true, beq_iff_eq] at hpy
          exact Or.inr ⟨hpy.1, hpy.2, rfl⟩
    | none =>
      have hx : PS.vote_poll s pid uid (some o) nid
          = (⟨200, true⟩,
             { s with
                votes := s.votes ++ [⟨nid, pid, opt.id, uid, none⟩] }) := by
        simp [PS.vote_poll, hne, hfp, hpid, hfo, hfv]
      rw [hx]
      refine ⟨rfl, ?_, ?_, ?_⟩
      · simp [hfv]
      · exact ⟨⟨nid, pid, opt.id, uid, none⟩, by simp, rfl, rfl, rfl⟩
      · intro w hw
        rcases List.mem_append.1 hw with h | h
        · exact Or.inl h
        · have hw' : w = (⟨nid, pid, opt.id, uid, none⟩ : PS.Vote) := by
            simpa using h
          subst hw'
          exact Or.inr ⟨rfl, rfl, rfl⟩

/-- C7 (witness for the amended theorem): a vote request without an
`option_id` on an existing poll yields 400 and leaves the store as it
was. -/
theorem C7_vote_poll_behavior_witness :
    PS.vote_poll twoPollStore 1 2 none 5 = (⟨400, false⟩, twoPollStore) :=
  (C7_vote_poll_behavior twoPollStore 1 2 none 5
    ⟨1, "First", "", "", 1, true, none⟩ (by decide)).1 rfl

/-! ## Claim C8 -/

/-- C8 (counterexample): `analytics_data`'s `popular_polls` slices the
five most recent polls *before* sorting by votes: on `sixPollStore` the
only voted poll (poll 6, the oldest) is not returned, while every
returned poll has strictly fewer votes than it — the claimed dominance
of returned over non-returned polls fails. -/
theorem C8_popular_polls_slices_before_sorting :
    (PS.analytics_data_popular sixPollStore).map (fun e => e.voteCount)
      = [0, 0, 0, 0, 0] ∧
    6 ∉ (PS.analytics_data_popular sixPollStore).map (fun e => e.pollId) ∧
    PS.pollVoteCount sixPollStore 6 = 1 ∧
    (∀ e ∈ PS.analytics_data_popular sixPollStore,
       e.voteCount < PS.pollVoteCount sixPollStore 6) := by decide

/-- C8 (amended): the two sort-then-truncate implementations do satisfy
the claim: `polls`' `analytics_top_polls` returns a vote-count-descending
prefix dominating every entry it leaves out, and `poll_system`'s
`top_polls` (which pre-filters to polls with ≥ 1 vote) returns a
descending prefix whose members have at least as many votes as every
poll not represented in the result; `analytics_data`'s `popular_polls`
does not (see the counterexample). -/
theorem C8_top_polls_sorted_dominant :
    (∀ (s : PollsApp.State) (x : PollsApp.TEntry),
       x ∈ PollsApp.analytics_top_polls s →
       ∀ y ∈ PollsApp.analyticsEntries s, y ∉ PollsApp.analytics_top_polls s →
         y.voteCount ≤ x.voteCount) ∧
    (∀ s : PollsApp.State,
       (PollsApp.analytics_top_polls s).Pairwise
         (fun a b => b.voteCount ≤ a.voteCount)) ∧
    (∀ (s : PS.State) (x : PS.TopEntry), x ∈ PS.top_polls s →
       ∀ p ∈ s.polls, (∀ e ∈ PS.top_polls s, e.pollId ≠ p.id) →
         PS.pollVoteCount s p.id ≤ x.voteCount) ∧
    (∀ s : PS.State,
       (PS.top_polls s).Pairwise (fun a b => b.voteCount ≤ a.voteCount)) := by
  refine ⟨?_, ?_, ?_, ?_⟩
  · intro s x hx y hy hyn
    unfold PollsApp.analytics_top_polls at hx hyn
    exact PollNexus.sortDescBy_take_dominates (fun e => e.voteCount)
      (PollsApp.analyticsEntries s) 6 x hx y hy hyn
  · intro s
    unfold PollsApp.analytics_top_polls
    exact PollNexus.sortDescBy_take_sorted (fun e => e.voteCount)
      (PollsApp.analyticsEntries s) 6
  · intro s x hx p hp hne
    unfold PS.top_polls at hx
    obtain ⟨e, he, rfl⟩ := List.mem_map.1 hx
    rcases Nat.eq_zero_or_pos (PS.pollVoteCount s p.id) with hz | hpos
    · rw [hz]; exact Nat.zero_le _
    · have hyv : (p, PS.pollVoteCount s p.id) ∈ PS.votedEntries s := by
        unfold PS.votedEntries
        refine List.mem_filter.2 ⟨List.mem_map.2 ⟨p, hp, rfl⟩, ?_⟩
        simpa using hpos
      by_cases hin : (p, PS.pollVoteCount s p.id)
          ∈ (PollNexus.sortDescBy (fun e => e.2) (PS.votedEntries s)).take 10
      · exact absurd rfl (hne _ (List.mem_map.2 ⟨_, hin, rfl⟩))
      · exact PollNexus.sortDescBy_take_dominates (fun e => e.2)
          (PS.votedEntries s) 10 e he (p, PS.pollVoteCount s p.id) hyv hin
  · intro s
    unfold PS.top_polls
    exact List.pairwise_map.2
      (PollNexus.sortDescBy_take_sorted (fun e => e.2) (PS.votedEntries s) 10)

/-- C8 (witness for the amended theorem): on `sevenPollStore` the
excluded zero-vote entry for poll 6 has no more votes than the returned
entry for poll 7. -/
theorem C8_top_polls_sorted_dominant_witness :
    (⟨6, "P6", 0, 0⟩ : PollsApp.TEntry).voteCount
      ≤ (⟨7, "P7", 1, 2⟩ : PollsApp.TEntry).voteCount :=
  C8_top_polls_sorted_dominant.1 sevenPollStore ⟨7, "P7", 1, 2⟩ (by decide)
    ⟨6, "P6", 0, 0⟩ (by decide) (by decide)

/-! ## Claim C9 -/

/-- C9: a successful creator update through `poll_detail` PUT whose body
carries a (necessarily ≥ 2-element) options list deletes every option of
the poll, and — through the CASCADE of the `Vote.option` foreign key —
every vote row of the poll (assuming referential integrity: each vote's
option belongs to the vote's poll), so the poll's total vote count is 0
immediately after the update. -/
theorem C9_options_replacement_cascades_votes (s : PS.State)
    (uid pid obase : Nat) (body : PS.PutBody) (poll : PS.Poll)
    (hfp : PS.findPoll s pid = some poll)
    (hc : poll.creator = uid)
    (hlen : 2 ≤ body.options.length)
    (hfk : ∀ v ∈ s.votes, ∃ o ∈ s.options, o.id = v.optionId ∧ o.pollId = v.pollId) :
    (PS.poll_detail_put s true uid pid body obase).1 = ⟨200, true⟩ ∧
    (∀ v ∈ (PS.poll_detail_put s true uid pid body obase).2.votes,
       v ∈ s.votes ∧ v.pollId ≠ pid) ∧
    PS.pollVoteCount (PS.poll_detail_put s true uid pid body obase).2 pid = 0 := by
  have hpid : poll.id = pid := by
    unfold PS.findPoll at hfp
    have h1 := List.find?_some hfp
    exact beq_iff_eq.mp h1
  have hnil : body.options.isEmpty = false := by
    cases hbo : body.options with
    | nil => rw [hbo] at hlen; simp at hlen
    | cons a l => rfl
  have hstatus : (PS.poll_detail_put s true uid pid body obase).1 = ⟨200, true⟩ := by
    unfold PS.poll_detail_put
    rw [hfp]
    simp [hc, hpid, Nat.not_lt.2 hlen, hnil]
  have hx : (PS.poll_detail_put s true uid pid body obase).2.votes
      = s.votes.filter (fun v =>
          !(((s.options.filter (fun o => o.pollId == pid)).map (fun o => o.id)).contains
            v.optionId)) := by
    unfold PS.poll_detail_put
    rw [hfp]
    simp [hc, hpid, Nat.not_lt.2 hlen, hnil]
  have h2 : ∀ v ∈ (PS.poll_detail_put s true uid pid body obase).2.votes,
      v ∈ s.votes ∧ v.pollId ≠ pid := by
    intro v hv
    rw [hx] at hv
    have hv1 := List.mem_filter.1 hv
    refine ⟨hv1.1, ?_⟩
    intro hvp
    rcases hfk v hv1.1 with ⟨o, ho, hoid, hopid⟩
    have hmem : v.optionId
        ∈ (s.options.filter (fun o => o.pollId == pid)).map (fun o => o.id) :=
      List.mem_map.2 ⟨o, List.mem_filter.2 ⟨ho, by simp [hopid, hvp]⟩, hoid⟩
    have hcont := List.elem_eq_true_of_mem hmem
    have hv2 := hv1.2
    rw [Bool.not_eq_true'] at hv2
    rw [List.contains] at hv2
    exact absurd hcont (by rw [hv2]; exact Bool.false_ne_true)
  refine ⟨hstatus, h2, ?_⟩
  unfold PS.pollVoteCount
  rw [List.length_eq_zero]
  apply List.filter_eq_nil_iff.2
  intro v hv hbeq
  exact (h2 v hv).2 (beq_iff_eq.mp hbeq)

/-- C9 (witness): after the creator renames poll 1 of `psVotedStore` and
replaces its options, the poll's previously-cast vote is gone and the
total vote count is 0. -/
theorem C9_options_replacement_cascades_votes_witness :
    PS.pollVoteCount (PS.poll_detail_put psVotedStore true 1 1 renameBody 50).2 1
      = 0 :=
  (C9_options_replacement_cascades_votes psVotedStore 1 1 50 renameBody
    ⟨1, "Lunch?", "", "", 1, true, none⟩ (by decide) (by decide) (by decide)
    (by decide)).2.2

/-! ## Claim C10 -/

/-- C10: `create_poll` validates the length of the *raw* options list and
only then strips and skips whitespace-only entries: the request with
options `["Pizza", "   "]` is accepted (200) and the created poll is
persisted with a single option. -/
theorem C10_blank_options_skipped :
    (PS.create_poll emptyPSStore 1 "Lunch?" "" "" ["Pizza", "   "] 7 20).1
      = ⟨200, true⟩ ∧
    ((PS.create_poll emptyPSStore 1 "Lunch?" "" "" ["Pizza", "   "] 7 20).2.options.filter
        (fun o => o.pollId == 7)).length = 1 := by decide
